import Mathlib

/-!
Shallow embedding of the GATT client protocol engine of
`src/stack/gatt/gatt_cl.cc` (Bluetooth ATT client side), together with
theorems settling the behavioural claims about it.

Conventions of the embedding:
* machine integers (`uint8_t`, `uint16_t`) are modelled as `Nat`; the
  arithmetic below stays far from the wrap-around points;
* byte buffers (`uint8_t*` plus a length) are modelled as `List Nat`;
* a C function that mutates its control block and performs one outgoing
  action (send a PDU, end the operation) becomes a Lean function that
  returns the action together with the updated control-block record;
* the transmit path (`attp_send_cl_msg`, `gatt_send_write_msg`) is outside
  this translation unit; its returned status is passed in as a parameter
  where the source branches on it.
-/

/-! ## Constants

Numeric constants used by `gatt_cl.cc`.  The values below either appear
literally in `gatt_cl.cc` or come from the GATT headers of this repository
that are not part of the provided sources; for the latter the values are
the ATT opcodes and status codes fixed by the Bluetooth Core specification
(Vol 3 Part F), which the spec names as the wire format. -/

def GATT_WRITE_LONG_HDR_SIZE : Nat := 5
def GATT_PREP_WRITE_RSP_MIN_LEN : Nat := 4
def GATT_NOTIFICATION_MIN_LEN : Nat := 2
def GATT_INFO_RSP_MIN_LEN : Nat := 1
def GATT_MTU_RSP_MIN_LEN : Nat := 2
def GATT_READ_BY_TYPE_RSP_MIN_LEN : Nat := 1

/-- Modelled from the spec: `GATT_MAX_ATTR_LEN`, the fixed upper bound for
attribute reassembly buffers ("4 KiB in the reference domain"); the header
defining it is not among the provided sources.  None of the claims depends
on the exact value, only on the comparisons against it. -/
def GATT_MAX_ATTR_LEN : Nat := 4096

/-- Modelled from the spec: the default ATT MTU, 23. -/
def GATT_DEF_BLE_MTU_SIZE : Nat := 23

/-- Opcode header size: 1 opcode byte + 2 handle bytes. -/
def GATT_HDR_SIZE : Nat := 3

/-! ATT protocol opcodes (Bluetooth Core Vol 3 Part F 3.4.8). -/

def GATT_RSP_ERROR : Nat := 0x01
def GATT_REQ_MTU : Nat := 0x02
def GATT_RSP_MTU : Nat := 0x03
def GATT_REQ_FIND_INFO : Nat := 0x04
def GATT_RSP_FIND_INFO : Nat := 0x05
def GATT_REQ_FIND_TYPE_VALUE : Nat := 0x06
def GATT_RSP_FIND_TYPE_VALUE : Nat := 0x07
def GATT_REQ_READ_BY_TYPE : Nat := 0x08
def GATT_RSP_READ_BY_TYPE : Nat := 0x09
def GATT_REQ_READ : Nat := 0x0A
def GATT_RSP_READ : Nat := 0x0B
def GATT_REQ_READ_BLOB : Nat := 0x0C
def GATT_RSP_READ_BLOB : Nat := 0x0D
def GATT_REQ_READ_MULTI : Nat := 0x0E
def GATT_RSP_READ_MULTI : Nat := 0x0F
def GATT_REQ_READ_BY_GRP_TYPE : Nat := 0x10
def GATT_RSP_READ_BY_GRP_TYPE : Nat := 0x11
def GATT_REQ_WRITE : Nat := 0x12
def GATT_RSP_WRITE : Nat := 0x13
def GATT_CMD_WRITE : Nat := 0x52
def GATT_REQ_PREPARE_WRITE : Nat := 0x16
def GATT_RSP_PREPARE_WRITE : Nat := 0x17
def GATT_REQ_EXEC_WRITE : Nat := 0x18
def GATT_RSP_EXEC_WRITE : Nat := 0x19
def GATT_HANDLE_VALUE_NOTIF : Nat := 0x1B
def GATT_HANDLE_VALUE_IND : Nat := 0x1D
def GATT_HANDLE_VALUE_CONF : Nat := 0x1E
def GATT_SIGN_CMD_WRITE : Nat := 0xD2

/-! GATT status codes (`tGATT_STATUS`). -/

def GATT_SUCCESS : Nat := 0x00
def GATT_INVALID_HANDLE : Nat := 0x01
def GATT_INVALID_PDU : Nat := 0x04
def GATT_NOT_FOUND : Nat := 0x0A
def GATT_NOT_LONG : Nat := 0x0B
def GATT_NO_RESOURCES : Nat := 0x80
def GATT_INTERNAL_ERROR : Nat := 0x81
def GATT_ERROR : Nat := 0x85
def GATT_CMD_STARTED : Nat := 0x86
def GATT_CONGESTED : Nat := 0x8F

/-! Client operation types (`GATTC_OPTYPE_*`). -/

def GATTC_OPTYPE_NONE : Nat := 0
def GATTC_OPTYPE_DISCOVERY : Nat := 1
def GATTC_OPTYPE_READ : Nat := 2
def GATTC_OPTYPE_WRITE : Nat := 3
def GATTC_OPTYPE_EXE_WRITE : Nat := 4
def GATTC_OPTYPE_CONFIG : Nat := 5
def GATTC_OPTYPE_NOTIFICATION : Nat := 6
def GATTC_OPTYPE_INDICATION : Nat := 7

/-! Discovery subtypes (`GATT_DISC_*`). -/

def GATT_DISC_SRVC_ALL : Nat := 1
def GATT_DISC_SRVC_BY_UUID : Nat := 2
def GATT_DISC_INC_SRVC : Nat := 3
def GATT_DISC_CHAR : Nat := 4
def GATT_DISC_CHAR_DSCPT : Nat := 5
def GATT_DISC_MAX : Nat := 6

/-! Read subtypes (`GATT_READ_*`). -/

def GATT_READ_BY_TYPE : Nat := 1
def GATT_READ_BY_HANDLE : Nat := 2
def GATT_READ_MULTIPLE : Nat := 3
def GATT_READ_CHAR_VALUE : Nat := 4
def GATT_READ_PARTIAL : Nat := 5
def GATT_READ_CHAR_VALUE_HDL : Nat := GATT_READ_CHAR_VALUE ||| 0x80
def GATT_READ_INC_SRV_UUID128 : Nat := GATT_DISC_INC_SRVC ||| 0x90

/-! Write subtypes (`GATT_WRITE_*`) and execute-write flags. -/

def GATT_WRITE_NO_RSP : Nat := 1
def GATT_WRITE : Nat := 2
def GATT_WRITE_PREPARE : Nat := 3
def GATT_PREP_WRITE_CANCEL : Nat := 0x00
def GATT_PREP_WRITE_EXEC : Nat := 0x01

/-! ## Byte-stream primitives -/

/-- Model of the `STREAM_TO_UINT16` macro: read a little-endian `uint16_t`
from the front of the byte stream.  Every call site in `gatt_cl.cc` has
already checked that at least two bytes remain, so the default `0` for a
short list is never exercised by the theorems below. -/
def STREAM_TO_UINT16 (p : List Nat) : Nat :=
  p.headD 0 + 256 * (p.drop 1).headD 0

/-- Model of the `STREAM_TO_UINT8` macro. -/
def STREAM_TO_UINT8 (p : List Nat) : Nat :=
  p.headD 0

/-! ## gatt_cmd_to_rsp_code (claim C5) -/

/-- Translation of `gatt_cmd_to_rsp_code` from `gatt_cl.cc`: map an ATT
request opcode to the expected response opcode; `0` means no response is
expected.  The source exempts only `GATT_CMD_WRITE` (and opcodes `0`/`1`)
from the `+ 1` rule. -/
def gatt_cmd_to_rsp_code (cmd_code : Nat) : Nat :=
  if 1 < cmd_code ∧ cmd_code ≠ GATT_CMD_WRITE then cmd_code + 1 else 0

/-! ## gatt_process_mtu_rsp (claim C1) -/

/-- Result of processing an ExchangeMtu response: the connection's new
`payload_size` and the status passed to `gatt_end_operation`. -/
structure MtuRspResult where
  payload_size : Nat
  status : Nat
deriving DecidableEq

/-- Translation of `gatt_process_mtu_rsp` from `gatt_cl.cc`.  `payload_size`
is `tcb.payload_size` on entry; `len`/`p_data` are the response body.  The
call to `l2cble_set_fixed_channel_tx_data_length` is an external side
effect and is not part of the state modelled here. -/
def gatt_process_mtu_rsp (payload_size len : Nat) (p_data : List Nat) :
    MtuRspResult :=
  if len < GATT_MTU_RSP_MIN_LEN then
    { payload_size := payload_size, status := GATT_INVALID_PDU }
  else if STREAM_TO_UINT16 p_data < payload_size ∧
          GATT_DEF_BLE_MTU_SIZE ≤ STREAM_TO_UINT16 p_data then
    { payload_size := STREAM_TO_UINT16 p_data, status := GATT_SUCCESS }
  else
    { payload_size := payload_size, status := GATT_SUCCESS }

/-! ## gatt_act_discovery and gatt_proc_disc_error_rsp (claim C4) -/

/-- Table `disc_type_to_att_opcode` from `gatt_cl.cc`. -/
def disc_type_to_att_opcode (t : Nat) : Nat :=
  [0, GATT_REQ_READ_BY_GRP_TYPE, GATT_REQ_FIND_TYPE_VALUE,
   GATT_REQ_READ_BY_TYPE, GATT_REQ_READ_BY_TYPE, GATT_REQ_FIND_INFO].getD t 0

/-- Outgoing action of one `gatt_act_discovery` invocation: either the
operation ends with a status, or a ranging request is (re)issued. -/
inductive DiscAction where
  | complete (status : Nat)
  | sendRequest (op_code s_handle e_handle : Nat)
deriving DecidableEq

/-- Translation of `gatt_act_discovery` from `gatt_cl.cc`.  `send_status`
is the value returned by `attp_send_cl_msg` when the request is submitted
(the transport is outside this translation unit). -/
def gatt_act_discovery (op_subtype s_handle e_handle send_status : Nat) :
    DiscAction :=
  if e_handle < s_handle ∨ s_handle = 0 then
    DiscAction.complete GATT_SUCCESS
  else if send_status ≠ GATT_SUCCESS ∧ send_status ≠ GATT_CMD_STARTED then
    DiscAction.complete GATT_ERROR
  else
    DiscAction.sendRequest (disc_type_to_att_opcode op_subtype) s_handle e_handle

/-- Translation of `gatt_proc_disc_error_rsp` from `gatt_cl.cc`: the status
with which the discovery operation is ended after an ErrorResponse carrying
`opcode`/`reason`. -/
def gatt_proc_disc_error_rsp (opcode reason : Nat) : Nat :=
  if (opcode = GATT_REQ_READ_BY_GRP_TYPE ∨ opcode = GATT_REQ_FIND_TYPE_VALUE ∨
      opcode = GATT_REQ_READ_BY_TYPE ∨ opcode = GATT_REQ_FIND_INFO) ∧
     reason = GATT_NOT_FOUND then
    GATT_SUCCESS
  else
    reason

/-! ## gatt_process_error_rsp (claims C9 and C6) -/

/-- The fields of the client control block (`tGATT_CLCB`) read by
`gatt_process_error_rsp`.  `attr_handle` is `some h` when `p_attr_buf`
points at a `tGATT_VALUE` whose handle is `h`, and `none` when
`p_attr_buf` is `NULL`. -/
structure ClcbErr where
  operation : Nat
  op_subtype : Nat
  first_read_blob_after_read : Bool
  attr_handle : Option Nat
deriving DecidableEq

/-- Outgoing action of `gatt_process_error_rsp`: either the operation ends
(`with_buffer` records whether `p_attr_buf` is passed as the payload), or
an `ExecuteWrite(cancel)` is sent with `p_clcb->status` set to the
received reason. -/
inductive ErrRspAction where
  | endOp (status : Nat) (with_buffer : Bool)
  | sendExecWriteCancel (new_status : Nat)
deriving DecidableEq

/-- Translation of `gatt_process_error_rsp` from `gatt_cl.cc`.  A body
shorter than 4 bytes yields the synthesised fields `opcode = 0`,
`handle = 0`, `reason = 0x7F`; otherwise the three fields are parsed from
the stream. -/
def gatt_process_error_rsp (clcb : ClcbErr) (len : Nat) (p_data : List Nat) :
    ErrRspAction :=
  let opcode := if len < 4 then 0 else STREAM_TO_UINT8 p_data
  let handle := if len < 4 then 0 else STREAM_TO_UINT16 (p_data.drop 1)
  let reason := if len < 4 then 0x7F else STREAM_TO_UINT8 (p_data.drop 3)
  if clcb.operation = GATTC_OPTYPE_DISCOVERY then
    ErrRspAction.endOp (gatt_proc_disc_error_rsp opcode reason) false
  else if clcb.operation = GATTC_OPTYPE_WRITE ∧ clcb.op_subtype = GATT_WRITE ∧
          opcode = GATT_REQ_PREPARE_WRITE ∧ clcb.attr_handle = some handle then
    ErrRspAction.sendExecWriteCancel reason
  else if clcb.operation = GATTC_OPTYPE_READ ∧
          (clcb.op_subtype = GATT_READ_CHAR_VALUE_HDL ∨
           clcb.op_subtype = GATT_READ_BY_HANDLE) ∧
          opcode = GATT_REQ_READ_BLOB ∧
          clcb.first_read_blob_after_read = true ∧ reason = GATT_NOT_LONG then
    ErrRspAction.endOp GATT_SUCCESS true
  else
    ErrRspAction.endOp reason false

/-! ## gatt_act_read (claim C6) -/

/-- The fields of `tGATT_CLCB` read and written by `gatt_act_read`. -/
structure ActReadClcb where
  op_subtype : Nat
  s_handle : Nat
  e_handle : Nat
  counter : Nat
  first_read_blob_after_read : Bool
deriving DecidableEq

/-- Outgoing action of `gatt_act_read`: a request PDU (opcode, handle,
offset — the offset is meaningful for ReadBlob only) or the end of the
operation. -/
inductive ActReadSend where
  | sendReq (op_code handle offset : Nat)
  | endOp (status : Nat)
deriving DecidableEq

/-- Translation of `gatt_act_read` from `gatt_cl.cc`, returning the action
together with the updated control block.  `send_status` is the value
returned by `attp_send_cl_msg`.  The `GATT_READ_MULTIPLE` branch sends the
handle list stored in `p_attr_buf`; the list itself is not modelled
(no claim touches it).  Note the toggle of `first_read_blob_after_read` on
every ReadBlob request and the `&= ~0x80` / `&= ~0x90` subtype-mask
updates. -/
def gatt_act_read (clcb : ActReadClcb) (offset send_status : Nat) :
    ActReadSend × ActReadClcb :=
  if clcb.op_subtype = GATT_READ_CHAR_VALUE ∨ clcb.op_subtype = GATT_READ_BY_TYPE then
    (if send_status ≠ GATT_SUCCESS ∧ send_status ≠ GATT_CMD_STARTED then
       ActReadSend.endOp send_status
     else ActReadSend.sendReq GATT_REQ_READ_BY_TYPE clcb.s_handle 0, clcb)
  else if clcb.op_subtype = GATT_READ_CHAR_VALUE_HDL ∨
          clcb.op_subtype = GATT_READ_BY_HANDLE then
    if clcb.counter = 0 then
      (if send_status ≠ GATT_SUCCESS ∧ send_status ≠ GATT_CMD_STARTED then
         ActReadSend.endOp send_status
       else ActReadSend.sendReq GATT_REQ_READ clcb.s_handle 0,
       { clcb with op_subtype := clcb.op_subtype &&& 0x7F })
    else
      (if send_status ≠ GATT_SUCCESS ∧ send_status ≠ GATT_CMD_STARTED then
         ActReadSend.endOp send_status
       else ActReadSend.sendReq GATT_REQ_READ_BLOB clcb.s_handle offset,
       { clcb with
         first_read_blob_after_read := !clcb.first_read_blob_after_read,
         op_subtype := clcb.op_subtype &&& 0x7F })
  else if clcb.op_subtype = GATT_READ_PARTIAL then
    (if send_status ≠ GATT_SUCCESS ∧ send_status ≠ GATT_CMD_STARTED then
       ActReadSend.endOp send_status
     else ActReadSend.sendReq GATT_REQ_READ_BLOB clcb.s_handle offset, clcb)
  else if clcb.op_subtype = GATT_READ_MULTIPLE then
    (if send_status ≠ GATT_SUCCESS ∧ send_status ≠ GATT_CMD_STARTED then
       ActReadSend.endOp send_status
     else ActReadSend.sendReq GATT_REQ_READ_MULTI clcb.s_handle 0, clcb)
  else if clcb.op_subtype = GATT_READ_INC_SRV_UUID128 then
    (if send_status ≠ GATT_SUCCESS ∧ send_status ≠ GATT_CMD_STARTED then
       ActReadSend.endOp send_status
     else ActReadSend.sendReq GATT_REQ_READ clcb.s_handle 0,
     { clcb with op_subtype := clcb.op_subtype &&& 0x6F })
  else
    (ActReadSend.endOp GATT_INTERNAL_ERROR, clcb)

/-! ## gatt_process_notification (claims C7 and C8) -/

/-- One registration slot of `gatt_cb.cl_rcb` (`tGATT_REG`): whether the
slot is in use and whether the application supplied a completion callback
(`app_cb.p_cmpl_cb`). -/
structure RegApp where
  in_use : Bool
  has_cmpl_cb : Bool
deriving DecidableEq

/-- Observable outcome of `gatt_process_notification`: whether the PDU was
dropped before the fan-out, whether a Confirmation PDU was sent during the
call, whether the indication-ack timer was started, the final
`tcb.ind_count`, and how many application callbacks fired. -/
structure NotifResult where
  dropped : Bool
  conf_sent : Bool
  timer_started : Bool
  ind_count : Nat
  callbacks : Nat
deriving DecidableEq

/-- Translation of `gatt_process_notification` from `gatt_cl.cc`.
`ind_count0` is `tcb.ind_count` on entry and `apps` is the registry
`gatt_cb.cl_rcb`.  `GATT_HANDLE_IS_VALID(x)` is `x ≠ 0`.  For an
Indication the source first resets a stale nonzero `ind_count`, then
counts the registered applications with a completion callback, and either
starts the ack timer (count positive) or immediately sends a Confirmation
(count zero); the fan-out loop then invokes the completion callback of each
such application. -/
def gatt_process_notification (op_code ind_count0 : Nat) (apps : List RegApp)
    (len : Nat) (p_data : List Nat) : NotifResult :=
  let event := if op_code = GATT_HANDLE_VALUE_NOTIF then GATTC_OPTYPE_NOTIFICATION
               else GATTC_OPTYPE_INDICATION
  if len < GATT_NOTIFICATION_MIN_LEN then
    { dropped := true, conf_sent := false, timer_started := false,
      ind_count := ind_count0, callbacks := 0 }
  else if GATT_MAX_ATTR_LEN < len - 2 then
    { dropped := true, conf_sent := false, timer_started := false,
      ind_count := ind_count0, callbacks := 0 }
  else if STREAM_TO_UINT16 p_data = 0 then
    { dropped := true,
      conf_sent := if op_code = GATT_HANDLE_VALUE_IND then true else false,
      timer_started := false, ind_count := ind_count0, callbacks := 0 }
  else
    let ic1 := if event = GATTC_OPTYPE_INDICATION then 0 else ind_count0
    let n := (apps.filter (fun a => a.in_use && a.has_cmpl_cb)).length
    let ic2 := if event = GATTC_OPTYPE_INDICATION then ic1 + n else ic1
    { dropped := false,
      conf_sent := if event = GATTC_OPTYPE_INDICATION ∧ ¬ (0 < ic2) then true
                   else false,
      timer_started := if event = GATTC_OPTYPE_INDICATION ∧ 0 < ic2 then true
                       else false,
      ind_count := ic2,
      callbacks := n }

/-! ## gatt_process_read_rsp (claim C2) -/

/-- The fields of `tGATT_CLCB`/`tGATT_TCB` driving the long-read
reassembly in `gatt_process_read_rsp`: the running offset `counter`, the
reassembly buffer contents, and the MTU snapshot
`read_req_current_mtu`. -/
structure ReadRspState where
  counter : Nat
  attr_buf : List Nat
  read_req_current_mtu : Nat
deriving DecidableEq

/-- Outgoing action of `gatt_process_read_rsp` in the long-read arm:
either another ReadBlob is issued via `gatt_act_read` at the new offset,
or the operation ends with a status and payload buffer. -/
inductive ReadRspOutcome where
  | continueBlob (next_offset : Nat)
  | endOp (status : Nat) (buf : List Nat)
deriving DecidableEq

/-- Translation of the `GATTC_OPTYPE_READ` / `GATT_READ_BY_HANDLE` arm of
`gatt_process_read_rsp` from `gatt_cl.cc` (the arm driving long reads;
the other arms deliver a single PDU or resolve a 128-bit included-service
UUID and are not touched by claim C2).  `payload_size` is
`tcb.payload_size`; `len`/`p` are the response body.  The source truncates
`len` to `GATT_MAX_ATTR_LEN - offset`, appends the (truncated) fragment at
`offset = counter`, recomputes `read_req_current_mtu` when the negotiated
MTU changed, and issues another ReadBlob exactly when the packet is full
and the buffer has not reached `GATT_MAX_ATTR_LEN`. -/
def gatt_process_read_rsp_by_handle (payload_size : Nat) (st : ReadRspState)
    (len : Nat) (p : List Nat) : ReadRspOutcome × ReadRspState :=
  if st.counter < GATT_MAX_ATTR_LEN then
    let len2 := if GATT_MAX_ATTR_LEN < len + st.counter then
                  GATT_MAX_ATTR_LEN - st.counter
                else len
    let buf2 := st.attr_buf.take st.counter ++ p.take len2
    let st2 : ReadRspState :=
      { counter := st.counter + len2, attr_buf := buf2,
        read_req_current_mtu :=
          if payload_size = st.read_req_current_mtu then st.read_req_current_mtu
          else payload_size }
    if ((payload_size = st.read_req_current_mtu ∧ len2 = payload_size - 1) ∨
        (payload_size ≠ st.read_req_current_mtu ∧
         (len2 = st.read_req_current_mtu - 1 ∨ len2 = payload_size - 1))) ∧
       len2 + st.counter < GATT_MAX_ATTR_LEN then
      (ReadRspOutcome.continueBlob (st.counter + len2), st2)
    else
      (ReadRspOutcome.endOp GATT_SUCCESS buf2, st2)
  else
    (ReadRspOutcome.endOp GATT_NO_RESOURCES st.attr_buf, st)

/-! ## gatt_check_write_long_terminate and gatt_process_prep_write_rsp
(claim C3) -/

/-- The `tGATT_VALUE` stored in `p_clcb->p_attr_buf` for a write: target
handle, write cursor `offset`, total length `len`, and the source bytes. -/
structure WriteAttr where
  handle : Nat
  offset : Nat
  len : Nat
  value : List Nat
deriving DecidableEq

/-- The fields of `tGATT_CLCB` driving a prepare-write exchange. -/
structure PrepWriteClcb where
  op_subtype : Nat
  counter : Nat
  status : Nat
  attr : WriteAttr
deriving DecidableEq

/-- A parsed PrepareWrite response (`tGATT_VALUE` built by
`gatt_process_prep_write_rsp`). -/
structure PrepRsp where
  handle : Nat
  offset : Nat
  len : Nat
  value : List Nat
deriving DecidableEq

/-- Result of `gatt_check_write_long_terminate`: whether the long write
terminates, the `ExecuteWrite` flag chosen, and the updated control
block. -/
structure WriteLongCheck where
  terminate : Bool
  exec_flag : Nat
  clcb : PrepWriteClcb
deriving DecidableEq

/-- Translation of `gatt_check_write_long_terminate` from `gatt_cl.cc`,
for the case where both the response value and `p_attr_buf` are present
(the only way `gatt_process_prep_write_rsp` calls it; the NULL branch
cancels with `GATT_ERROR` and is not modelled).  `memcmp` over
`p_rsp_value->len` bytes is the equality of the length-`rsp.len` prefixes
of the echoed value and of `attr.value + attr.offset`. -/
def gatt_check_write_long_terminate (clcb : PrepWriteClcb) (rsp : PrepRsp) :
    WriteLongCheck :=
  if rsp.handle ≠ clcb.attr.handle ∨ rsp.len ≠ clcb.counter ∨
     rsp.value.take rsp.len ≠
       (clcb.attr.value.drop clcb.attr.offset).take rsp.len then
    { terminate := true, exec_flag := GATT_PREP_WRITE_CANCEL,
      clcb := { clcb with status := GATT_ERROR } }
  else
    { terminate := decide (clcb.attr.len ≤ clcb.attr.offset + rsp.len),
      exec_flag := GATT_PREP_WRITE_EXEC,
      clcb := { clcb with
                status := GATT_SUCCESS,
                attr := { clcb.attr with
                          offset := clcb.attr.offset + rsp.len } } }

/-- Outgoing action of `gatt_process_prep_write_rsp`: end the operation,
send an `ExecuteWrite` with the given flag (`GATT_PREP_WRITE_EXEC`
commits, `GATT_PREP_WRITE_CANCEL` cancels), or send the next
`PrepareWrite` fragment. -/
inductive PrepWriteAction where
  | endOp (status : Nat)
  | sendExecWrite (flag : Nat)
  | sendNextPrepare
deriving DecidableEq

/-- Translation of `gatt_process_prep_write_rsp` from `gatt_cl.cc`
combined with the `ExecuteWrite` dispatch inside
`gatt_check_write_long_terminate` (which sends the queue-write
commit/cancel when terminating a non-`GATT_WRITE_PREPARE` subtype). -/
def gatt_process_prep_write_rsp (clcb : PrepWriteClcb) (len : Nat)
    (p_data : List Nat) : PrepWriteAction × PrepWriteClcb :=
  if len < GATT_PREP_WRITE_RSP_MIN_LEN then
    (PrepWriteAction.endOp GATT_INVALID_PDU, clcb)
  else
    let rsp : PrepRsp :=
      { handle := STREAM_TO_UINT16 p_data,
        offset := STREAM_TO_UINT16 (p_data.drop 2),
        len := len - 4,
        value := (p_data.drop 4).take (len - 4) }
    let chk := gatt_check_write_long_terminate clcb rsp
    if chk.terminate = false then
      (PrepWriteAction.sendNextPrepare, chk.clcb)
    else if chk.clcb.op_subtype = GATT_WRITE_PREPARE then
      (PrepWriteAction.endOp chk.clcb.status, chk.clcb)
    else
      (PrepWriteAction.sendExecWrite chk.exec_flag, chk.clcb)

/-! ## gatt_process_read_by_type_rsp, characteristic records (claim C10) -/

/-- One record of a ReadByType response in the "discover characteristic"
arm of `gatt_process_read_by_type_rsp`: the declaration handle, the
characteristic properties, the value handle, whether
`gatt_parse_uuid_from_cmd` succeeds on the record's UUID bytes, and the
parsed UUID (`0` standing for the empty UUID, matching `Uuid::IsEmpty`).
The byte-level splitting of the response into fixed-size records (the
`while (len >= handle_len + value_len)` loop head) is abstracted into the
record list. -/
structure CharRecord where
  handle : Nat
  char_prop : Nat
  val_handle : Nat
  uuid_parse_ok : Bool
  char_uuid : Nat
deriving DecidableEq

/-- Outgoing action of the characteristic-record loop: end the operation
with a status and NULL payload, switch to reading the matched
characteristic value (`gatt_act_read` after `op_subtype |= 0x80`), or fall
out of the loop and proceed (re-issue the discovery or read request with
`s_handle` set past the last record). -/
inductive RbtAction where
  | endOpNull (status : Nat)
  | actRead (val_handle : Nat)
  | proceed (next_s_handle : Nat)
deriving DecidableEq

/-- The UUID-filter skip test of the characteristic arm: skip the record
when the application supplied a filter, the record's UUID parsed nonempty,
and the two differ (`!p_clcb->uuid.IsEmpty() && !char_uuid.IsEmpty() &&
char_uuid != p_clcb->uuid`). -/
def char_rec_skip (filter_uuid : Nat) (r : CharRecord) : Bool :=
  (filter_uuid != 0) && (r.char_uuid != 0) && (r.char_uuid != filter_uuid)

/-- Translation of the "discover characteristic" arm of
`gatt_process_read_by_type_rsp` from `gatt_cl.cc`, processing the records
of one response in order.  `operation` is `p_clcb->operation`
(`GATTC_OPTYPE_DISCOVERY` during characteristic discovery,
`GATTC_OPTYPE_READ` during a UUID-filtered characteristic-value read);
`filter_uuid` is `p_clcb->uuid`; `last_handle` tracks the source's
`handle` variable for the post-loop `s_handle` update.  The second
component counts the discovery callbacks fired. -/
def gatt_process_char_records :
    Nat → Nat → Nat → List CharRecord → Nat → RbtAction × Nat
  | _, _, _, [], last_handle =>
      (RbtAction.proceed (if last_handle = 0 then 0 else last_handle + 1), 0)
  | operation, filter_uuid, value_len, r :: rest, _ =>
      if r.handle = 0 then
        (RbtAction.endOpNull GATT_INVALID_HANDLE, 0)
      else if value_len < 3 then
        (RbtAction.endOpNull GATT_INVALID_PDU, 0)
      else if r.val_handle = 0 then
        (RbtAction.endOpNull GATT_INVALID_HANDLE, 0)
      else if r.uuid_parse_ok = false then
        (RbtAction.endOpNull GATT_SUCCESS, 0)
      else if char_rec_skip filter_uuid r = true then
        gatt_process_char_records operation filter_uuid value_len rest r.handle
      else if operation = GATTC_OPTYPE_READ then
        (RbtAction.actRead r.val_handle, 0)
      else
        ((gatt_process_char_records operation filter_uuid value_len rest
            r.handle).fst,
         (gatt_process_char_records operation filter_uuid value_len rest
            r.handle).snd + 1)

/-! ## Claim C5 -/

/-- C5 counterexample: the claim states that the mapping yields `0` (no
response expected) for `SignedWriteCommand` (`0xD2`); the source only
exempts `GATT_CMD_WRITE` (`0x52`), so `0xD2` is mapped to `0xD3`. -/
theorem sign_cmd_write_rsp_code_cex :
    gatt_cmd_to_rsp_code GATT_SIGN_CMD_WRITE = 0xD3 ∧
    gatt_cmd_to_rsp_code GATT_SIGN_CMD_WRITE ≠ 0 := by
  constructor <;> decide

/-- C5 (amended): `gatt_cmd_to_rsp_code` yields `0` for `WriteCommand`
(`0x52`) and for the non-request opcodes `0` and `1`, and
`request_opcode + 1` for every other opcode — including
`SignedWriteCommand`, which is mapped to `0xD3` rather than `0`. -/
theorem gatt_cmd_to_rsp_code_spec (c : Nat) (h1 : 1 < c)
    (h2 : c ≠ GATT_CMD_WRITE) :
    gatt_cmd_to_rsp_code c = c + 1 ∧
    gatt_cmd_to_rsp_code GATT_CMD_WRITE = 0 := by
  refine ⟨?_, by decide⟩
  unfold gatt_cmd_to_rsp_code
  rw [if_pos ⟨h1, h2⟩]

/-- C5 witness: the amended rule evaluated at the Read request opcode. -/
theorem gatt_cmd_to_rsp_code_spec_witness :
    gatt_cmd_to_rsp_code GATT_REQ_READ = GATT_REQ_READ + 1 ∧
    gatt_cmd_to_rsp_code GATT_CMD_WRITE = 0 :=
  gatt_cmd_to_rsp_code_spec GATT_REQ_READ (by decide) (by decide)

/-! ## Claim C1 -/

/-- C1 counterexample: `payload_size` can decrease across
`gatt_process_mtu_rsp`.  With `payload_size = 100` (the value adopted when
the client sent `ExchangeMtu(100)`, outside this translation unit) and a
server response of `64`, the handler lowers `payload_size` to `64 < 100`,
refuting "payload_size is greater than or equal to its value before the
event". -/
theorem mtu_rsp_payload_decrease_cex :
    ¬ (100 ≤ (gatt_process_mtu_rsp 100 2 [64, 0]).payload_size) := by
  decide

/-- C1 (amended): across `gatt_process_mtu_rsp` the negotiated
`payload_size` never increases, and never drops below the default 23 when
it was at least 23; precisely, the handler adopts the server MTU exactly
when `23 ≤ mtu < payload_size` and otherwise leaves `payload_size`
unchanged (a response shorter than 2 bytes also leaves it unchanged and
ends the operation with `GATT_INVALID_PDU`). -/
theorem gatt_process_mtu_rsp_payload_clamp (ps len : Nat) (p_data : List Nat)
    (h : GATT_DEF_BLE_MTU_SIZE ≤ ps) :
    (gatt_process_mtu_rsp ps len p_data).payload_size ≤ ps ∧
    GATT_DEF_BLE_MTU_SIZE ≤ (gatt_process_mtu_rsp ps len p_data).payload_size ∧
    (GATT_MTU_RSP_MIN_LEN ≤ len →
      (gatt_process_mtu_rsp ps len p_data).payload_size =
        (if STREAM_TO_UINT16 p_data < ps ∧
            GATT_DEF_BLE_MTU_SIZE ≤ STREAM_TO_UINT16 p_data then
          STREAM_TO_UINT16 p_data
        else ps)) ∧
    (len < GATT_MTU_RSP_MIN_LEN →
      (gatt_process_mtu_rsp ps len p_data).status = GATT_INVALID_PDU ∧
      (gatt_process_mtu_rsp ps len p_data).payload_size = ps) := by
  unfold gatt_process_mtu_rsp
  by_cases hlen : len < GATT_MTU_RSP_MIN_LEN
  · rw [if_pos hlen]
    exact ⟨le_refl ps, h, fun hge => absurd hlen (by omega), fun _ => ⟨rfl, rfl⟩⟩
  · rw [if_neg hlen]
    by_cases hmtu : STREAM_TO_UINT16 p_data < ps ∧
        GATT_DEF_BLE_MTU_SIZE ≤ STREAM_TO_UINT16 p_data
    · rw [if_pos hmtu]
      exact ⟨le_of_lt hmtu.1, hmtu.2, fun _ => (if_pos hmtu).symm,
        fun hc => absurd hc hlen⟩
    · rw [if_neg hmtu]
      exact ⟨le_refl ps, h, fun _ => (if_neg hmtu).symm, fun hc => absurd hc hlen⟩

/-- C1 witness: the amended rule evaluated at `payload_size = 100`,
response MTU `64`: the payload drops to `64`, stays at least 23 and never
exceeds the old value. -/
theorem gatt_process_mtu_rsp_payload_clamp_witness :
    (gatt_process_mtu_rsp 100 2 [64, 0]).payload_size ≤ 100 ∧
    GATT_DEF_BLE_MTU_SIZE ≤ (gatt_process_mtu_rsp 100 2 [64, 0]).payload_size ∧
    (GATT_MTU_RSP_MIN_LEN ≤ 2 →
      (gatt_process_mtu_rsp 100 2 [64, 0]).payload_size =
        (if STREAM_TO_UINT16 [64, 0] < 100 ∧
            GATT_DEF_BLE_MTU_SIZE ≤ STREAM_TO_UINT16 [64, 0] then
          STREAM_TO_UINT16 [64, 0]
        else 100)) ∧
    (2 < GATT_MTU_RSP_MIN_LEN →
      (gatt_process_mtu_rsp 100 2 [64, 0]).status = GATT_INVALID_PDU ∧
      (gatt_process_mtu_rsp 100 2 [64, 0]).payload_size = 100) :=
  gatt_process_mtu_rsp_payload_clamp 100 2 [64, 0] (by decide)

/-! ## Claim C4 -/

/-- C4 counterexample: the claim says every ErrorResponse reason other than
`AttributeNotFound` terminates the discovery with that reason as a failure
status, and that the procedure ends in Success only through conditions
(a)-(c).  A reason byte of `0x00` (not `AttributeNotFound`) makes
`gatt_proc_disc_error_rsp` end the discovery with status `0x00`, which is
`GATT_SUCCESS`. -/
theorem disc_error_rsp_zero_reason_cex :
    gatt_proc_disc_error_rsp GATT_REQ_READ_BY_TYPE 0 = GATT_SUCCESS ∧
    (0 : Nat) ≠ GATT_NOT_FOUND := by
  constructor <;> decide

/-- C4 (amended): `gatt_act_discovery` ends the procedure with `Success`
exactly when `start_handle > end_handle` or `start_handle = 0`; an
ErrorResponse ends it with `Success` exactly when its reason is
`AttributeNotFound` on one of the four ranging opcodes, or when the reason
byte itself equals the `Success` code `0x00`; in every other case the
ending status is the received reason byte. -/
theorem gatt_discovery_termination (sub s e st op r : Nat) :
    (gatt_act_discovery sub s e st = DiscAction.complete GATT_SUCCESS ↔
      (e < s ∨ s = 0)) ∧
    (gatt_proc_disc_error_rsp op r = GATT_SUCCESS ↔
      (((op = GATT_REQ_READ_BY_GRP_TYPE ∨ op = GATT_REQ_FIND_TYPE_VALUE ∨
         op = GATT_REQ_READ_BY_TYPE ∨ op = GATT_REQ_FIND_INFO) ∧
        r = GATT_NOT_FOUND) ∨ r = GATT_SUCCESS)) ∧
    (gatt_proc_disc_error_rsp op r = GATT_SUCCESS ∨
     gatt_proc_disc_error_rsp op r = r) := by
  refine ⟨?_, ?_, ?_⟩
  · unfold gatt_act_discovery
    by_cases h1 : e < s ∨ s = 0
    · simp [h1]
    · simp only [if_neg h1]
      by_cases h2 : st ≠ GATT_SUCCESS ∧ st ≠ GATT_CMD_STARTED
      · simp only [if_pos h2]
        constructor
        · intro hc
          exact absurd (DiscAction.complete.inj hc) (by decide)
        · intro hc
          exact absurd hc h1
      · simp only [if_neg h2]
        constructor
        · intro hc
          exact absurd hc (by simp)
        · intro hc
          exact absurd hc h1
  · unfold gatt_proc_disc_error_rsp
    by_cases hc : (op = GATT_REQ_READ_BY_GRP_TYPE ∨ op = GATT_REQ_FIND_TYPE_VALUE ∨
        op = GATT_REQ_READ_BY_TYPE ∨ op = GATT_REQ_FIND_INFO) ∧ r = GATT_NOT_FOUND
    · simp [hc]
    · simp only [if_neg hc]
      constructor
      · intro hr
        exact Or.inr hr
      · intro hr
        rcases hr with hr | hr
        · exact absurd hr hc
        · exact hr
  · unfold gatt_proc_disc_error_rsp
    by_cases hc : (op = GATT_REQ_READ_BY_GRP_TYPE ∨ op = GATT_REQ_FIND_TYPE_VALUE ∨
        op = GATT_REQ_READ_BY_TYPE ∨ op = GATT_REQ_FIND_INFO) ∧ r = GATT_NOT_FOUND
    · simp [hc]
    · simp [hc]

/-! ## Claim C9 -/

/-- C9: an ErrorResponse body shorter than 4 bytes is processed with the
synthesised fields `request_opcode = 0`, `handle = 0`, `reason = 0x7F`; in
every operation state the outstanding procedure then ends with status
`0x7F` (opcode `0` matches neither the PrepareWrite nor the ReadBlob
special cases, and is not a ranging opcode). -/
theorem error_rsp_too_short_synthesizes_7f (clcb : ClcbErr) (len : Nat)
    (p_data : List Nat) (h : len < 4) :
    gatt_process_error_rsp clcb len p_data = ErrRspAction.endOp 0x7F false := by
  unfold gatt_process_error_rsp
  simp only [if_pos h]
  by_cases h1 : clcb.operation = GATTC_OPTYPE_DISCOVERY
  · rw [if_pos h1]
    decide
  · rw [if_neg h1,
        if_neg (fun hc => absurd hc.2.2.1 (by decide)),
        if_neg (fun hc => absurd hc.2.2.1 (by decide))]

/-- C9 witness: a zero-length ErrorResponse during a read-by-handle
procedure ends the operation with the synthesised status `0x7F`. -/
theorem error_rsp_too_short_synthesizes_7f_witness :
    gatt_process_error_rsp ⟨GATTC_OPTYPE_READ, GATT_READ_BY_HANDLE, false, none⟩
      0 [] = ErrRspAction.endOp 0x7F false :=
  error_rsp_too_short_synthesizes_7f
    ⟨GATTC_OPTYPE_READ, GATT_READ_BY_HANDLE, false, none⟩ 0 [] (by decide)

/-! ## Claim C6 -/

/-- C6: the code contradicts the claim's "this remapping applies to the
first blob only".  `gatt_act_read` toggles `first_read_blob_after_read` on
every ReadBlob it sends, so the flag is `true` again on the third blob of
the same procedure, and a `ReadBlob` ErrorResponse with reason
`AttributeNotLong` arriving then is still remapped to `GATT_SUCCESS` with
the partial buffer.  Below, a `GATT_READ_BY_HANDLE` control block that has
already consumed its initial Read (`counter = 22 ≠ 0`, flag still `false`)
issues three consecutive ReadBlob requests; the third send leaves the flag
`true`, and a subsequent `ErrorResponse(ReadBlob, handle 0x21,
AttributeNotLong)` ends the operation with `GATT_SUCCESS` and the partial
buffer instead of failing with `GATT_NOT_LONG`. -/
theorem third_read_blob_not_long_still_remaps :
    (gatt_act_read ((gatt_act_read ((gatt_act_read
        ⟨GATT_READ_BY_HANDLE, 0x21, 0xFFFF, 22, false⟩
        22 GATT_CMD_STARTED).snd) 44 GATT_CMD_STARTED).snd)
        66 GATT_CMD_STARTED).fst
      = ActReadSend.sendReq GATT_REQ_READ_BLOB 0x21 66 ∧
    gatt_process_error_rsp
      ⟨GATTC_OPTYPE_READ, GATT_READ_BY_HANDLE,
        (gatt_act_read ((gatt_act_read ((gatt_act_read
            ⟨GATT_READ_BY_HANDLE, 0x21, 0xFFFF, 22, false⟩
            22 GATT_CMD_STARTED).snd) 44 GATT_CMD_STARTED).snd)
            66 GATT_CMD_STARTED).snd.first_read_blob_after_read, none⟩
      4 [GATT_REQ_READ_BLOB, 0x21, 0x00, GATT_NOT_LONG] =
      ErrRspAction.endOp GATT_SUCCESS true := by
  decide

/-! ## Claim C8 -/

/-- C8: a HandleValueNotification/Indication with body length below 2 or
with `value_len = len - 2` above `GATT_MAX_ATTR_LEN` is dropped with no
application callback and no Confirmation; one whose handle parses to `0`
is dropped with no callback, with a Confirmation sent exactly when the PDU
is an Indication. -/
theorem notification_drop_rules (op ic len : Nat) (apps : List RegApp)
    (p_data : List Nat) :
    (len < GATT_NOTIFICATION_MIN_LEN ∨ GATT_MAX_ATTR_LEN < len - 2 →
      gatt_process_notification op ic apps len p_data =
        { dropped := true, conf_sent := false, timer_started := false,
          ind_count := ic, callbacks := 0 }) ∧
    (GATT_NOTIFICATION_MIN_LEN ≤ len → len - 2 ≤ GATT_MAX_ATTR_LEN →
      STREAM_TO_UINT16 p_data = 0 →
      (gatt_process_notification op ic apps len p_data).dropped = true ∧
      (gatt_process_notification op ic apps len p_data).callbacks = 0 ∧
      ((gatt_process_notification op ic apps len p_data).conf_sent = true ↔
        op = GATT_HANDLE_VALUE_IND)) := by
  constructor
  · intro hdrop
    unfold gatt_process_notification
    rcases hdrop with hd | hd
    · rw [if_pos hd]
    · by_cases h1 : len < GATT_NOTIFICATION_MIN_LEN
      · rw [if_pos h1]
      · rw [if_neg h1, if_pos hd]
  · intro h1 h2 h3
    unfold gatt_process_notification
    rw [if_neg (by omega), if_neg (by omega), if_pos h3]
    refine ⟨rfl, rfl, ?_⟩
    by_cases hop : op = GATT_HANDLE_VALUE_IND
    · rw [if_pos hop]
      exact ⟨fun _ => hop, fun _ => rfl⟩
    · rw [if_neg hop]
      exact ⟨fun hc => absurd hc (by simp), fun hc => absurd hc hop⟩

/-- C8 witness: an Indication of body length 1 is dropped silently, and an
Indication with handle `0` is dropped with a Confirmation sent. -/
theorem notification_drop_rules_witness :
    gatt_process_notification GATT_HANDLE_VALUE_IND 5
        ([⟨true, true⟩] : List RegApp) 1 [7] =
      { dropped := true, conf_sent := false, timer_started := false,
        ind_count := 5, callbacks := 0 } ∧
    (gatt_process_notification GATT_HANDLE_VALUE_IND 0
        ([⟨true, true⟩] : List RegApp) 4 [0, 0, 1, 2]).conf_sent = true := by
  constructor
  · exact (notification_drop_rules GATT_HANDLE_VALUE_IND 5 1
      ([⟨true, true⟩] : List RegApp) [7]).1 (Or.inl (by decide))
  · exact ((notification_drop_rules GATT_HANDLE_VALUE_IND 0 4
      ([⟨true, true⟩] : List RegApp) [0, 0, 1, 2]).2 (by decide) (by decide)
      (by decide)).2.2.mpr rfl

/-! ## Claim C7 -/

/-- C7: for a received Indication with a valid (nonzero) handle and
well-formed length, `ind_count` is set to the number of registered
applications with a completion callback — discarding any stale nonzero
count — and a Confirmation is sent immediately exactly when that number is
zero, while the indication-ack timer is started exactly when it is
positive; every such application also receives the fan-out callback. -/
theorem indication_sets_ind_count (ic len : Nat) (apps : List RegApp)
    (p_data : List Nat) (h1 : GATT_NOTIFICATION_MIN_LEN ≤ len)
    (h2 : len - 2 ≤ GATT_MAX_ATTR_LEN) (h3 : STREAM_TO_UINT16 p_data ≠ 0) :
    (gatt_process_notification GATT_HANDLE_VALUE_IND ic apps len
        p_data).ind_count =
      (apps.filter (fun a => a.in_use && a.has_cmpl_cb)).length ∧
    ((gatt_process_notification GATT_HANDLE_VALUE_IND ic apps len
        p_data).conf_sent = true ↔
      (apps.filter (fun a => a.in_use && a.has_cmpl_cb)).length = 0) ∧
    ((gatt_process_notification GATT_HANDLE_VALUE_IND ic apps len
        p_data).timer_started = true ↔
      0 < (apps.filter (fun a => a.in_use && a.has_cmpl_cb)).length) ∧
    (gatt_process_notification GATT_HANDLE_VALUE_IND ic apps len
        p_data).callbacks =
      (apps.filter (fun a => a.in_use && a.has_cmpl_cb)).length := by
  have hev : (if GATT_HANDLE_VALUE_IND = GATT_HANDLE_VALUE_NOTIF then
      GATTC_OPTYPE_NOTIFICATION else GATTC_OPTYPE_INDICATION) =
      GATTC_OPTYPE_INDICATION := by decide
  unfold gatt_process_notification
  rw [if_neg (by omega), if_neg (by omega), if_neg h3, hev]
  refine ⟨by simp, ?_, ?_, by simp⟩
  · by_cases hzero : (apps.filter (fun a => a.in_use && a.has_cmpl_cb)).length = 0
    · simp [hzero]
    · simp [Nat.not_lt, Nat.le_zero, hzero]
  · by_cases hzero : (apps.filter (fun a => a.in_use && a.has_cmpl_cb)).length = 0
    · simp [hzero]
    · simp [hzero, Nat.pos_of_ne_zero hzero]

/-- C7 witness: an Indication with handle `0x42` against a registry with
one complete registration and one slot without a completion callback sets
`ind_count` from the stale value 7 to 1, starts the ack timer, sends no
Confirmation yet, and fires one callback. -/
theorem indication_sets_ind_count_witness :
    (gatt_process_notification GATT_HANDLE_VALUE_IND 7
        ([⟨true, true⟩, ⟨true, false⟩] : List RegApp) 4
        [0x42, 0, 1, 2]).ind_count =
      (([⟨true, true⟩, ⟨true, false⟩] : List RegApp).filter
        (fun a => a.in_use && a.has_cmpl_cb)).length ∧
    ((gatt_process_notification GATT_HANDLE_VALUE_IND 7
        ([⟨true, true⟩, ⟨true, false⟩] : List RegApp) 4
        [0x42, 0, 1, 2]).conf_sent = true ↔
      (([⟨true, true⟩, ⟨true, false⟩] : List RegApp).filter
        (fun a => a.in_use && a.has_cmpl_cb)).length = 0) ∧
    ((gatt_process_notification GATT_HANDLE_VALUE_IND 7
        ([⟨true, true⟩, ⟨true, false⟩] : List RegApp) 4
        [0x42, 0, 1, 2]).timer_started = true ↔
      0 < (([⟨true, true⟩, ⟨true, false⟩] : List RegApp).filter
        (fun a => a.in_use && a.has_cmpl_cb)).length) ∧
    (gatt_process_notification GATT_HANDLE_VALUE_IND 7
        ([⟨true, true⟩, ⟨true, false⟩] : List RegApp) 4
        [0x42, 0, 1, 2]).callbacks =
      (([⟨true, true⟩, ⟨true, false⟩] : List RegApp).filter
        (fun a => a.in_use && a.has_cmpl_cb)).length :=
  indication_sets_ind_count 7 4 [⟨true, true⟩, ⟨true, false⟩] [0x42, 0, 1, 2]
    (by decide) (by decide) (by decide)

/-! ## Claim C2 -/

/-- C2 counterexample: the claim asserts that on completion the buffer
byte-equals the concatenation of all fragments received so far, but the
source truncates a fragment that would overflow `GATT_MAX_ATTR_LEN`.
The state below is reachable with `payload_size = 23` throughout: 186 full
fragments of 22 bytes bring `counter` to `4092 < 4096`, so another
ReadBlob is issued; the next fragment of 22 bytes is truncated to 4 bytes,
the procedure completes with `GATT_SUCCESS`, and the final buffer (4096
bytes) differs from the concatenation of the fragments (4114 bytes). -/
theorem read_rsp_truncation_cex :
    (gatt_process_read_rsp_by_handle 23
        ⟨4092, List.replicate 4092 0, 23⟩ 22 (List.replicate 22 1)).fst =
      ReadRspOutcome.endOp GATT_SUCCESS
        (List.replicate 4092 0 ++ List.replicate 4 1) ∧
    List.replicate 4092 0 ++ List.replicate 4 1 ≠
      List.replicate 4092 0 ++ (List.replicate 22 1 : List Nat) := by
  constructor
  · unfold gatt_process_read_rsp_by_handle
    norm_num [GATT_MAX_ATTR_LEN, GATT_SUCCESS, List.take_replicate]
  · intro hcontra
    have hlen2 := congrArg List.length hcontra
    simp only [List.length_append, List.length_replicate] at hlen2
    omega

/-- C2 (amended): in the long-read arm, after a Read/ReadBlob response of
body length `len` the engine issues another ReadBlob if and only if the
fragment is full — `len = payload_size - 1`, or, when the MTU changed
mid-procedure (`payload_size ≠ read_req_current_mtu`), `len` equals either
the old snapshot's or the new `payload_size - 1` — and the buffer is not
yet at `GATT_MAX_ATTR_LEN`; otherwise it completes with `GATT_SUCCESS`
and a buffer that byte-equals the concatenation of all fragments received
so far *truncated to `GATT_MAX_ATTR_LEN` bytes* (the truncation is the
correction; without it the claim fails, see the counterexample). -/
theorem gatt_process_read_rsp_long_read_step (payload : Nat)
    (st : ReadRspState) (len : Nat) (p : List Nat)
    (hbuf : st.attr_buf.length = st.counter)
    (hoff : st.counter < GATT_MAX_ATTR_LEN) (hlen : p.length = len) :
    ((∃ k, (gatt_process_read_rsp_by_handle payload st len p).fst =
        ReadRspOutcome.continueBlob k) ↔
      (((payload = st.read_req_current_mtu ∧ len = payload - 1) ∨
        (payload ≠ st.read_req_current_mtu ∧
         (len = st.read_req_current_mtu - 1 ∨ len = payload - 1))) ∧
       st.counter + len < GATT_MAX_ATTR_LEN)) ∧
    ((gatt_process_read_rsp_by_handle payload st len p).fst =
        ReadRspOutcome.continueBlob (st.counter + len) ∨
     (gatt_process_read_rsp_by_handle payload st len p).fst =
        ReadRspOutcome.endOp GATT_SUCCESS
          ((st.attr_buf ++ p).take GATT_MAX_ATTR_LEN)) := by
  have htake : st.attr_buf.take st.counter = st.attr_buf := by
    rw [← hbuf, List.take_length]
  unfold gatt_process_read_rsp_by_handle
  simp only [if_pos hoff]
  by_cases htr : GATT_MAX_ATTR_LEN < len + st.counter
  · simp only [if_pos htr]
    rw [if_neg (fun hc => by omega)]
    constructor
    · constructor
      · rintro ⟨k, hk⟩
        exact absurd hk (by simp)
      · rintro ⟨-, hlt⟩
        omega
    · right
      rw [htake, List.take_append_eq_append_take, hbuf,
        List.take_of_length_le
          (show st.attr_buf.length ≤ GATT_MAX_ATTR_LEN from by omega)]
  · simp only [if_neg htr]
    by_cases hfull : ((payload = st.read_req_current_mtu ∧
        len = payload - 1) ∨
        (payload ≠ st.read_req_current_mtu ∧
         (len = st.read_req_current_mtu - 1 ∨ len = payload - 1))) ∧
        len + st.counter < GATT_MAX_ATTR_LEN
    · rw [if_pos hfull]
      constructor
      · exact ⟨fun _ => ⟨hfull.1, by omega⟩, fun _ => ⟨st.counter + len, rfl⟩⟩
      · exact Or.inl rfl
    · rw [if_neg hfull]
      constructor
      · constructor
        · rintro ⟨k, hk⟩
          exact absurd hk (by simp)
        · rintro ⟨hA, hlt⟩
          exact absurd ⟨hA, by omega⟩ hfull
      · right
        rw [htake, List.take_of_length_le (le_of_eq hlen),
          List.take_append_eq_append_take, hbuf,
          List.take_of_length_le
            (show st.attr_buf.length ≤ GATT_MAX_ATTR_LEN from by omega),
          List.take_of_length_le
            (show p.length ≤ GATT_MAX_ATTR_LEN - st.counter from by omega)]

/-- C2 witness: the amended rule evaluated on a short 3-byte fragment at
`payload_size = 23` from an empty buffer: no further ReadBlob is issued and
the operation completes with `GATT_SUCCESS` and exactly the received
bytes. -/
theorem gatt_process_read_rsp_long_read_step_witness :
    ((∃ k, (gatt_process_read_rsp_by_handle 23
        ⟨0, [], 23⟩ 3 [9, 9, 9]).fst = ReadRspOutcome.continueBlob k) ↔
      ((((23 : Nat) = 23 ∧ (3 : Nat) = 23 - 1) ∨
        ((23 : Nat) ≠ 23 ∧ ((3 : Nat) = 23 - 1 ∨ (3 : Nat) = 23 - 1))) ∧
       0 + 3 < GATT_MAX_ATTR_LEN)) ∧
    ((gatt_process_read_rsp_by_handle 23 ⟨0, [], 23⟩ 3 [9, 9, 9]).fst =
        ReadRspOutcome.continueBlob (0 + 3) ∨
     (gatt_process_read_rsp_by_handle 23 ⟨0, [], 23⟩ 3 [9, 9, 9]).fst =
        ReadRspOutcome.endOp GATT_SUCCESS
          (([] ++ [9, 9, 9]).take GATT_MAX_ATTR_LEN)) :=
  gatt_process_read_rsp_long_read_step 23 ⟨0, [], 23⟩ 3 [9, 9, 9] rfl
    (by decide) rfl

/-! ## Claim C3 -/

/-- C3: during a long write with subtype `GATT_WRITE` (not
`GATT_WRITE_PREPARE`), a well-formed PrepareWrite response is checked
against the source value: if the echoed handle differs from
`attr.handle`, or the echoed length `len - 4` differs from `counter` (the
bytes last sent), or the echoed bytes differ anywhere from
`attr.value[attr.offset .. attr.offset + response.len]`, the engine sets
status `GATT_ERROR` and sends `ExecuteWrite(cancel)`; on an exact match it
advances `attr.offset` by the echoed length, sets status `GATT_SUCCESS`,
sends `ExecuteWrite(commit)` when the new `attr.offset` reaches
`attr.len`, and otherwise sends the next `PrepareWrite`. -/
theorem long_write_prep_rsp_check (clcb : PrepWriteClcb) (len : Nat)
    (p_data : List Nat) (hsub : clcb.op_subtype = GATT_WRITE)
    (hlen : GATT_PREP_WRITE_RSP_MIN_LEN ≤ len) :
    ((STREAM_TO_UINT16 p_data ≠ clcb.attr.handle ∨ len - 4 ≠ clcb.counter ∨
      (p_data.drop 4).take (len - 4) ≠
        (clcb.attr.value.drop clcb.attr.offset).take (len - 4)) →
      gatt_process_prep_write_rsp clcb len p_data =
        (PrepWriteAction.sendExecWrite GATT_PREP_WRITE_CANCEL,
         { clcb with status := GATT_ERROR })) ∧
    (STREAM_TO_UINT16 p_data = clcb.attr.handle → len - 4 = clcb.counter →
      (p_data.drop 4).take (len - 4) =
        (clcb.attr.value.drop clcb.attr.offset).take (len - 4) →
      ((gatt_process_prep_write_rsp clcb len p_data).snd.attr.offset =
         clcb.attr.offset + (len - 4) ∧
       (gatt_process_prep_write_rsp clcb len p_data).snd.status =
         GATT_SUCCESS ∧
       (clcb.attr.len ≤ clcb.attr.offset + (len - 4) →
         (gatt_process_prep_write_rsp clcb len p_data).fst =
           PrepWriteAction.sendExecWrite GATT_PREP_WRITE_EXEC) ∧
       (clcb.attr.offset + (len - 4) < clcb.attr.len →
         (gatt_process_prep_write_rsp clcb len p_data).fst =
           PrepWriteAction.sendNextPrepare))) := by
  have htt : ((p_data.drop 4).take (len - 4)).take (len - 4) =
      (p_data.drop 4).take (len - 4) := by
    rw [List.take_take, Nat.min_self]
  unfold gatt_process_prep_write_rsp gatt_check_write_long_terminate
  rw [if_neg (show ¬ len < GATT_PREP_WRITE_RSP_MIN_LEN from by omega)]
  constructor
  · intro hmm
    have hmis : STREAM_TO_UINT16 p_data ≠ clcb.attr.handle ∨
        len - 4 ≠ clcb.counter ∨
        ((p_data.drop 4).take (len - 4)).take (len - 4) ≠
          (clcb.attr.value.drop clcb.attr.offset).take (len - 4) := by
      rw [htt]
      exact hmm
    simp only [if_pos hmis]
    rw [if_neg (by simp), if_neg (by simp [hsub, GATT_WRITE, GATT_WRITE_PREPARE])]
  · intro he1 he2 he3
    have hmis_false : ¬ (STREAM_TO_UINT16 p_data ≠ clcb.attr.handle ∨
        len - 4 ≠ clcb.counter ∨
        ((p_data.drop 4).take (len - 4)).take (len - 4) ≠
          (clcb.attr.value.drop clcb.attr.offset).take (len - 4)) := by
      rw [htt]
      rintro (hc | hc | hc)
      · exact hc he1
      · exact hc he2
      · exact hc he3
    simp only [if_neg hmis_false]
    by_cases hterm : clcb.attr.len ≤ clcb.attr.offset + (len - 4)
    · rw [if_neg (by simp [hterm]),
        if_neg (by simp [hsub, GATT_WRITE, GATT_WRITE_PREPARE])]
      exact ⟨rfl, rfl, fun _ => rfl, fun hlt => absurd hterm (by omega)⟩
    · rw [if_pos (by simp [hterm])]
      exact ⟨rfl, rfl, fun hge => absurd hge hterm, fun _ => rfl⟩

/-- C3 witness: writing 4 bytes of `0xAA` to handle `0x31` with
`counter = 2` bytes outstanding; the server echoes 2 bytes of `0xBB`, so
the engine cancels with `ExecuteWrite(cancel)` and status `GATT_ERROR`. -/
theorem long_write_prep_rsp_check_witness :
    gatt_process_prep_write_rsp
      ⟨GATT_WRITE, 2, GATT_SUCCESS, ⟨0x31, 0, 4, [0xAA, 0xAA, 0xAA, 0xAA]⟩⟩
      6 [0x31, 0, 0, 0, 0xBB, 0xBB] =
      (PrepWriteAction.sendExecWrite GATT_PREP_WRITE_CANCEL,
       ⟨GATT_WRITE, 2, GATT_ERROR, ⟨0x31, 0, 4, [0xAA, 0xAA, 0xAA, 0xAA]⟩⟩) :=
  (long_write_prep_rsp_check
    ⟨GATT_WRITE, 2, GATT_SUCCESS, ⟨0x31, 0, 4, [0xAA, 0xAA, 0xAA, 0xAA]⟩⟩
    6 [0x31, 0, 0, 0, 0xBB, 0xBB] rfl (by decide)).1
    (Or.inr (Or.inr (by decide)))

/-! ## Claim C10 -/

/-- C10: in the characteristic arm of a ReadByType response (operation
`GATTC_OPTYPE_DISCOVERY` during characteristic discovery, or
`GATTC_OPTYPE_READ` during a UUID-filtered characteristic-value read),
when `gatt_parse_uuid_from_cmd` fails on a record the operation is ended
with status `GATT_SUCCESS` (which is not `GATT_INVALID_PDU`) and a NULL
payload, the remaining records are discarded, and only the
filter-matching records before the failing one produced discovery
callbacks. -/
theorem char_uuid_parse_failure_ends_success (operation filter_uuid
    value_len : Nat) (pre : List CharRecord) (bad : CharRecord)
    (rest : List CharRecord) (lh : Nat) (hvl : 3 ≤ value_len)
    (hpre : ∀ r ∈ pre, r.handle ≠ 0 ∧ r.val_handle ≠ 0 ∧
      r.uuid_parse_ok = true ∧
      (operation = GATTC_OPTYPE_READ → char_rec_skip filter_uuid r = true))
    (hb1 : bad.handle ≠ 0) (hb2 : bad.val_handle ≠ 0)
    (hb3 : bad.uuid_parse_ok = false) :
    gatt_process_char_records operation filter_uuid value_len
        (pre ++ bad :: rest) lh =
      (RbtAction.endOpNull GATT_SUCCESS,
       (pre.filter (fun r => !(char_rec_skip filter_uuid r))).length) := by
  induction pre generalizing lh with
  | nil =>
      rw [List.nil_append]
      unfold gatt_process_char_records
      rw [if_neg hb1, if_neg (by omega), if_neg hb2, if_pos hb3]
      simp
  | cons r pre ih =>
      have hr := hpre r (List.mem_cons_self r pre)
      rw [List.cons_append]
      unfold gatt_process_char_records
      rw [if_neg hr.1, if_neg (by omega), if_neg hr.2.1,
        if_neg (by simp [hr.2.2.1])]
      by_cases hskip : char_rec_skip filter_uuid r = true
      · rw [if_pos hskip,
          ih r.handle (fun x hx => hpre x (List.mem_cons_of_mem r hx))]
        simp [List.filter_cons, hskip]
      · have hskip' : char_rec_skip filter_uuid r = false := by
          revert hskip
          cases char_rec_skip filter_uuid r <;> simp
        rw [if_neg hskip,
          if_neg (fun hop => hskip (hr.2.2.2 hop)),
          ih r.handle (fun x hx => hpre x (List.mem_cons_of_mem r hx))]
        simp [List.filter_cons, hskip']

/-- C10 witness: one good record (declaration handle 1, value handle 2, a
parsed UUID 5, no filter) followed by a record whose UUID fails to parse,
followed by another record that is never examined: the loop ends the
operation with `GATT_SUCCESS` and NULL after one callback. -/
theorem char_uuid_parse_failure_ends_success_witness :
    gatt_process_char_records GATTC_OPTYPE_DISCOVERY 0 5
        ([⟨1, 2, 2, true, 5⟩] ++ ⟨3, 0, 4, false, 0⟩ ::
          [⟨9, 9, 9, true, 9⟩]) 0 =
      (RbtAction.endOpNull GATT_SUCCESS,
       (([⟨1, 2, 2, true, 5⟩] : List CharRecord).filter
         (fun r => !(char_rec_skip 0 r))).length) :=
  char_uuid_parse_failure_ends_success GATTC_OPTYPE_DISCOVERY 0 5
    [⟨1, 2, 2, true, 5⟩] ⟨3, 0, 4, false, 0⟩ [⟨9, 9, 9, true, 9⟩] 0
    (by decide) (by decide) (by decide) (by decide) (by decide)
